import Mathlib

/-!
Verification of the book catalog entity model (`src/book.py`).

The development shallowly embeds the module's data model and operations:

* Python enums with members (`BookFormat`, `BookStatus`, `BookCondition`)
  become Lean inductive types; `list(cls)` becomes the literal member list
  in declaration order.
* The dynamic registries (`BookCategory`, `DigitalFormat`) are value-level:
  a member is identified with its canonical label string, and the
  `Enum.__new__` / `Category._missing_` lookup path is embedded as a
  function over the list of members the class actually has.
* Dynamically typed constructor arguments (`LibraryLocation.category`,
  `LibraryLocation.shelf`, parsed JSON field values) are embedded as a
  small Python-value type `PyVal`, so `isinstance` checks are real case
  distinctions.
* Exceptions become `Except PyError` (or an `Option PyError` paired with
  the post-state where in-place mutation matters); each `PyError`
  constructor is documented with the `raise` site it stands for.
* JSON text is modelled by its parsed shape: an object with scalar fields
  is a `List (String × JsonVal)`.  Encoding/decoding that shape to text is
  the external `json` module's contract; what the repository contributes —
  which Python values `json.dumps` accepts, and what `from_dict` passes to
  the constructors — is embedded from the source.
* Python `str.lower` is modelled on the ASCII range, which covers every
  registry label.
-/

/-- The exceptions the module can raise.  Each constructor stands for one
raise site (or one failure of the Python runtime machinery) named in its
doc comment. -/
inductive PyError where
  /-- `ValueError(f"Invalid category {self.category}")` in
  `LibraryLocation.__post_init__` (the spec's `InvalidCategory`). -/
  | invalidCategory
  /-- `ValueError(f"Invalid shelf number {self.shelf}")` in
  `LibraryLocation.__post_init__` (the spec's `InvalidShelfNumber`). -/
  | invalidShelfNumber
  /-- `ValueError` in `Book.__post_init__` / `Book.set_status` when the
  status is not legal for the format (the spec's `InvalidStatusForFormat`). -/
  | invalidStatusForFormat
  /-- `TypeError("%r has no members defined")` raised by `Enum.__new__`
  when a value lookup is attempted on an enum class with no members. -/
  | enumHasNoMembers
  /-- `ValueError("%r is not a valid %s")` raised by `Enum.__new__` when
  both the by-value lookup and `_missing_` fail. -/
  | notAValidEnumValue
  /-- `TypeError("Object of type ... is not JSON serializable")` raised by
  `json.dumps` on a value the default encoder does not handle. -/
  | jsonNotSerializable
  /-- `KeyError` from a dict subscript such as `data["category"]`. -/
  | keyError (key : String)
  /-- `TypeError("non-default argument %r follows default argument")`
  raised by the `@dataclass` machinery while the class body executes. -/
  | dataclassNonDefaultFollowsDefault (fieldName : String)
deriving DecidableEq

/-- `class BookFormat(Enum)` (book.py lines 222-230). -/
inductive BookFormat where
  | hardcover
  | paperback
  | audiobook
  | ebook
deriving DecidableEq, BEq

/-- `BookFormat.is_physical`: `self in {BookFormat.HARDCOVER, BookFormat.PAPERBACK}`. -/
def BookFormat.is_physical (f : BookFormat) : Bool :=
  [BookFormat.hardcover, BookFormat.paperback].contains f

/-- `class BookStatus(Enum)` (book.py lines 233-237), members in
declaration order. -/
inductive BookStatus where
  | available
  | checked_out
  | on_hold
  | in_repair
deriving DecidableEq, BEq

/-- `BookStatus.get_valid_statuses` (book.py lines 239-243): `list(cls)`
for a physical format — every member in declaration order — and
`[cls.AVAILABLE]` otherwise. -/
def BookStatus.get_valid_statuses (book_format : BookFormat) : List BookStatus :=
  if book_format.is_physical = true then
    [BookStatus.available, BookStatus.checked_out, BookStatus.on_hold, BookStatus.in_repair]
  else
    [BookStatus.available]

/-- `class BookCondition(Enum)` (book.py lines 262-267), members in
declaration order. -/
inductive BookCondition where
  | new
  | excellent
  | good
  | fair
  | poor
deriving DecidableEq, BEq

/-- `BookCondition.get_valid_conditions` (book.py lines 269-273). -/
def BookCondition.get_valid_conditions (book_format : BookFormat) : List BookCondition :=
  if book_format.is_physical = true then
    [BookCondition.new, BookCondition.excellent, BookCondition.good,
     BookCondition.fair, BookCondition.poor]
  else
    [BookCondition.new]
/-- The module-level literal list `VALID_CATEGORIES` (book.py lines 8-104). -/
def VALID_CATEGORIES : List String := [
  "Action/Adventure fiction",
  "Children's fiction",
  "Classic fiction",
  "Contemporary fiction",
  "Fantasy",
  "Dark fantasy",
  "Fairy tales",
  "Folktales",
  "Heroic fantasy",
  "High fantasy",
  "Historical fantasy",
  "Low fantasy",
  "Magical realism",
  "Mythic fantasy",
  "Urban fantasy",
  "Graphic novel",
  "Historical fiction",
  "Horror",
  "Body horror",
  "Comedy horror",
  "Gothic horror",
  "Lovecraftian/Cosmic horror",
  "Paranormal horror",
  "Post-apocalyptic horror",
  "Psychological horror",
  "Quiet horror",
  "Slasher",
  "LGBTQ+",
  "Literary fiction",
  "Mystery",
  "Caper",
  "Cozy mystery",
  "Gumshoe/Detective mystery",
  "Historical mystery",
  "Howdunnits",
  "Locked room mystery",
  "Noir",
  "Procedural/Hard-boiled mystery",
  "Supernatural mystery",
  "New adult",
  "Romance",
  "Contemporary romance",
  "Dark romance",
  "Erotic romance",
  "Fantasy romance (Romantasy)",
  "Gothic romance",
  "Historical romance",
  "Paranormal romance",
  "Regency",
  "Romantic comedy",
  "Romantic suspense",
  "Sci-fi romance",
  "Satire",
  "Science fiction",
  "Apocalyptic sci-fi",
  "Colonization sci-fi",
  "Hard sci-fi",
  "Military sci-fi",
  "Mind uploading sci-fi",
  "Parallel world sci-fi",
  "Soft sci-fi",
  "Space opera",
  "Space western",
  "Steampunk",
  "Short story",
  "Thriller",
  "Action thriller",
  "Conspiracy thriller",
  "Disaster thriller",
  "Espionage thriller",
  "Forensic thriller",
  "Historical thriller",
  "Legal thriller",
  "Paranormal thriller",
  "Psychological thriller",
  "Religious thriller",
  "Western",
  "Women's fiction",
  "Young adult",
  "Art & photography",
  "Autobiography/Memoir",
  "Biography",
  "Essays",
  "Food & drink",
  "History",
  "How-To/Guides",
  "Humanities & social sciences",
  "Humor",
  "Parenting",
  "Philosophy",
  "Religion & spirituality",
  "Science & technology",
  "Self-help",
  "Travel",
  "True crime"
]

/-- The module-level literal list `EBOOK_FORMATS` (book.py lines 107-121). -/
def EBOOK_FORMATS : List String := [
  "EPUB",
  "PDF",
  "MOBI",
  "AZW",
  "AZW3",
  "KFX",
  "IBA",
  "FB2",
  "LIT",
  "PRC",
  "TXT",
  "RTF",
  "HTML"
]

/-- The module-level literal list `AUDIOBOOK_FORMATS` (book.py lines 124-135). -/
def AUDIOBOOK_FORMATS : List String := [
  "MP3",
  "AAC",
  "M4A",
  "M4B",
  "WMA",
  "OGG",
  "FLAC",
  "WAV",
  "AA",
  "AAX"
]

/-- Python `str.lower` on one character, modelled on the ASCII range (every
registry label is ASCII). -/
def pyLowerChar (c : Char) : Char :=
  if 'A' ≤ c ∧ c ≤ 'Z' then Char.ofNat (c.toNat + 32) else c

/-- Python `str.lower`, modelled on the ASCII range. -/
def pyLower (s : String) : String :=
  ⟨s.data.map pyLowerChar⟩

/-- A value lookup on a Python enum class whose members are value-identified
by `members`: `EnumType.__call__(cls, value)` delegates to `Enum.__new__`,
which tries the by-value map, then — only if the class has members at all —
the `_missing_` hook, here `Category._missing_` (book.py lines 139-145), a
case-insensitive scan over the members.  A memberless class raises
`TypeError("%r has no members defined")` instead of reaching `_missing_`. -/
def enumClassCall (members : List String) (value : String) : Except PyError String :=
  match members.find? (fun member => member = value) with
  | some member => Except.ok member
  | none =>
    if members.isEmpty = true then
      Except.error PyError.enumHasNoMembers
    else
      match members.find? (fun member => pyLower member = pyLower value) with
      | some member => Except.ok member
      | none => Except.error PyError.notAValidEnumValue

/-- The members `class BookCategory(Category)` (book.py lines 148-158) has
once its class body is executed: none.  The body defines only `__new__`
(saved by the enum machinery as `__new_member__`, used solely while members
are created from class-level assignments — of which there are none) and the
classmethod `create_categories`; neither is a member. -/
def BookCategory.classMembers : List String := []

/-- `BookCategory.create_categories` (book.py lines 156-158): the dict
comprehension `{category: cls(category) for category in VALID_CATEGORIES}`,
evaluated left to right, each entry calling the enum class on a label.  The
result maps each label to the member it resolves to, or is the first
exception raised. -/
def BookCategory.create_categories : Except PyError (List (String × String)) :=
  VALID_CATEGORIES.mapM (fun category => do
    let member ← enumClassCall BookCategory.classMembers category
    pure (category, member))

/-- A Python value as it can reach the value objects' constructors or the
JSON encoder: a `BookCategory` registry member (identified by its canonical
label), a plain string, or a plain integer. -/
inductive PyVal where
  | categoryEntry (label : String)
  | str (s : String)
  | int (n : Int)
deriving DecidableEq

/-- A scalar JSON field value, as `json.dumps` writes it and `json.loads`
reads it back. -/
inductive JsonVal where
  | str (s : String)
  | int (n : Int)
deriving DecidableEq

/-- What the default `json.dumps` encoder does with one Python value:
strings and integers are serialized; a `BookCategory` member (its class
derives from `Enum`, not from `str` or `int`) raises
`TypeError("Object of type BookCategory is not JSON serializable")`. -/
def PyVal.json_dumps : PyVal → Except PyError JsonVal
  | PyVal.categoryEntry _ => Except.error PyError.jsonNotSerializable
  | PyVal.str s => Except.ok (JsonVal.str s)
  | PyVal.int n => Except.ok (JsonVal.int n)

/-- `json.loads` hands a parsed scalar back as a plain Python value; a
registry member can never come out of parsing. -/
def JsonVal.to_python : JsonVal → PyVal
  | JsonVal.str s => PyVal.str s
  | JsonVal.int n => PyVal.int n

/-- `json.dumps` over a dict's items in insertion order, stopping at the
first value the encoder rejects. -/
def dumpsPairs : List (String × PyVal) → Except PyError (List (String × JsonVal))
  | [] => Except.ok []
  | (key, v) :: rest => do
    let jv ← v.json_dumps
    let jrest ← dumpsPairs rest
    Except.ok ((key, jv) :: jrest)

/-- A Python dict subscript `data[key]` over a parsed JSON object. -/
def dictGet : List (String × JsonVal) → String → Option JsonVal
  | [], _ => none
  | (key, v) :: rest, wanted => if key = wanted then some v else dictGet rest wanted

/-- `@dataclass class LibraryLocation` (book.py lines 164-193): fields
`category` and `shelf`.  Python enforces no type on the fields; they hold
whatever value the caller passed, so both are `PyVal`. -/
structure LibraryLocation where
  category : PyVal
  shelf : PyVal
deriving DecidableEq

/-- `isinstance(x, BookCategory)` for the class as written (the enum type
whose instances are the registry members): true exactly for a registry
member. -/
def isBookCategoryInstance : PyVal → Bool
  | PyVal.categoryEntry _ => true
  | _ => false

/-- `isinstance(x, int) and x >= 1`, the negation of the shelf test
`not isinstance(self.shelf, int) or self.shelf < 1` in
`LibraryLocation.__post_init__`. -/
def shelfIsPositiveInt : PyVal → Bool
  | PyVal.int n => decide (1 ≤ n)
  | _ => false

/-- `LibraryLocation.__post_init__` (book.py lines 189-193): first the
category `isinstance` test, then the shelf test; each failure raises at
once, success returns the object unchanged. -/
def LibraryLocation.post_init (loc : LibraryLocation) : Except PyError LibraryLocation :=
  if isBookCategoryInstance loc.category = false then
    Except.error PyError.invalidCategory
  else if shelfIsPositiveInt loc.shelf = false then
    Except.error PyError.invalidShelfNumber
  else
    Except.ok loc

/-- `LibraryLocation(category=..., shelf=...)`: the generated `__init__`
stores the fields, then `__post_init__` validates. -/
def LibraryLocation.create (category shelf : PyVal) : Except PyError LibraryLocation :=
  LibraryLocation.post_init { category := category, shelf := shelf }

/-- `LibraryLocation.dict_representation` (book.py lines 169-171):
`asdict(self)`, the fields in declaration order; `asdict` leaves the enum
member as it is (it only recurses into dataclasses, lists and dicts). -/
def LibraryLocation.dict_representation (loc : LibraryLocation) : List (String × PyVal) :=
  [("category", loc.category), ("shelf", loc.shelf)]

/-- `LibraryLocation.json_representation` (book.py lines 173-175):
`json.dumps(self.dict_representation)`. -/
def LibraryLocation.json_representation (loc : LibraryLocation) :
    Except PyError (List (String × JsonVal)) :=
  dumpsPairs loc.dict_representation

/-- `LibraryLocation.from_dict` (book.py lines 177-179):
`cls(category=data["category"], shelf=data["shelf"])` — the raw parsed
values go straight into the constructor, which re-runs `__post_init__`. -/
def LibraryLocation.from_dict (data : List (String × JsonVal)) : Except PyError LibraryLocation :=
  match dictGet data "category" with
  | none => Except.error (PyError.keyError "category")
  | some c =>
    match dictGet data "shelf" with
    | none => Except.error (PyError.keyError "shelf")
    | some s => LibraryLocation.create c.to_python s.to_python

/-- `LibraryLocation.from_json` (book.py lines 181-184): `json.loads` then
`from_dict`; the JSON text is modelled by its parsed object. -/
def LibraryLocation.from_json (data : List (String × JsonVal)) : Except PyError LibraryLocation :=
  LibraryLocation.from_dict data

/-- The serialization round trip `fromJSON(toJSON(v))` for a location. -/
def LibraryLocation.round_trip (loc : LibraryLocation) : Except PyError LibraryLocation := do
  let j ← loc.json_representation
  LibraryLocation.from_json j

/-- `@dataclass class BookSeries` (book.py lines 196-219): fields `series`
and `number`, no `__post_init__`, so construction never fails. -/
structure BookSeries where
  series : PyVal
  number : PyVal
deriving DecidableEq

/-- `BookSeries.dict_representation` (book.py lines 201-203). -/
def BookSeries.dict_representation (bs : BookSeries) : List (String × PyVal) :=
  [("series", bs.series), ("number", bs.number)]

/-- `BookSeries.json_representation` (book.py lines 205-207). -/
def BookSeries.json_representation (bs : BookSeries) :
    Except PyError (List (String × JsonVal)) :=
  dumpsPairs bs.dict_representation

/-- `BookSeries.from_dict` (book.py lines 209-211): plain construction from
the parsed values, no validation to re-run. -/
def BookSeries.from_dict (data : List (String × JsonVal)) : Except PyError BookSeries :=
  match dictGet data "series" with
  | none => Except.error (PyError.keyError "series")
  | some s =>
    match dictGet data "number" with
    | none => Except.error (PyError.keyError "number")
    | some n => Except.ok { series := s.to_python, number := n.to_python }

/-- `BookSeries.from_json` (book.py lines 213-216). -/
def BookSeries.from_json (data : List (String × JsonVal)) : Except PyError BookSeries :=
  BookSeries.from_dict data

/-- The serialization round trip `fromJSON(toJSON(v))` for a series. -/
def BookSeries.round_trip (bs : BookSeries) : Except PyError BookSeries := do
  let j ← bs.json_representation
  BookSeries.from_json j

/-- A `datetime.date`: inert data for this module (no claim computes with
dates). -/
structure PyDate where
  year : Int
  month : Int
  day : Int
deriving DecidableEq

/-- A Python `float`: inert data for this module (the monetary and file-size
fields are stored, never computed with), so the representation is an
abstract code. -/
structure PyFloat where
  code : Nat
deriving DecidableEq

/-- A `datetime.timedelta`, as the signed total number of microseconds.
Python stores it normalized as `(days, seconds, microseconds)` with
`0 <= seconds < 86400` and `0 <= microseconds < 1000000`; the attribute
`td.seconds` used by `format_audiobook_length` is recovered below. -/
structure PyTimedelta where
  total_microseconds : Int
deriving DecidableEq

/-- The `seconds` attribute of a `timedelta`: the whole seconds within the
current day, `(total_microseconds // 10^6) % 86400` with Python's floor
division and nonnegative modulus — `Int.ediv`/`Int.emod` coincide with them
for these positive divisors. -/
def PyTimedelta.seconds (td : PyTimedelta) : Nat :=
  ((td.total_microseconds.ediv 1000000).emod 86400).toNat

/-- `@dataclass class Book` (book.py lines 276-310): every field as
declared, in declaration order.  `genres`/`keywords`/`awards` hold plain
strings, `user_ratings` is a string-keyed int dict in insertion order,
`digital_file_format` holds a digital-format registry label. -/
structure Book where
  title : String
  authors : List String
  isbn : String
  publication_date : PyDate
  publisher : String
  edition : Int
  genres : List String
  number_of_pages : Int
  language : String
  format : BookFormat
  summary : String
  cover_image_url : String
  current_status : BookStatus
  location_in_library : Option LibraryLocation
  date_added : PyDate
  purchase_price : PyFloat
  replacement_cost : PyFloat
  dewey_decimal : String
  keywords : List String
  reading_level : String
  series_name_and_num : Option BookSeries
  orig_pub_date : Option PyDate
  translator : Option String
  illustrator : Option String
  condition : BookCondition
  number_of_times_checked_out : Int
  user_ratings : List (String × Int)
  awards : List String
  barcode_number : String
  date_available : Option PyDate
  digital_file_format : Option String
  digital_file_size : Option PyFloat
  audiobook_length : Option PyTimedelta
deriving DecidableEq

/-- Whether the book's current status is in its format's legal set:
`self.current_status in BookStatus.get_valid_statuses(self.format)`. -/
def Book.status_ok (b : Book) : Bool :=
  (BookStatus.get_valid_statuses b.format).contains b.current_status

/-- `Book.__post_init__` (book.py lines 312-317): raises unless the current
status is legal for the format; nothing else — in particular `condition`
is not inspected. -/
def Book.post_init (b : Book) : Except PyError Book :=
  if b.status_ok = true then Except.ok b
  else Except.error PyError.invalidStatusForFormat

/-- `Book.set_status` (book.py lines 319-323): raise before any assignment
when the new status is not legal for the format, otherwise assign
`self.current_status = new_status`.  The result pairs the raised exception
(if any) with the object's state after the call. -/
def Book.set_status (b : Book) (new_status : BookStatus) : Option PyError × Book :=
  if (BookStatus.get_valid_statuses b.format).contains new_status = true then
    (none, { b with current_status := new_status })
  else
    (some PyError.invalidStatusForFormat, b)

/-- A sequence of `set_status` calls on one object, each call's exception
caught by the caller: the object carries whatever state the call left it
in (unchanged on a raise, updated on success). -/
def Book.apply_status_calls (b : Book) (calls : List BookStatus) : Book :=
  calls.foldl (fun current target => (current.set_status target).2) b

/-- Python's `f"{n:02d}"` for a nonnegative integer: zero-pad to at least
two digits. -/
def zeroPad2 (n : Nat) : String :=
  if n < 10 then "0" ++ toString n else toString n

/-- `Book.format_audiobook_length` (book.py lines 325-330): `"N/A"` with no
duration, otherwise `divmod(self.audiobook_length.seconds, 3600)` then
`divmod(remainder, 60)`, rendered `f"{hours:02d}:{minutes:02d}:{seconds:02d}"`. -/
def Book.format_audiobook_length (b : Book) : String :=
  match b.audiobook_length with
  | none => "N/A"
  | some td =>
    let hours := td.seconds / 3600
    let remainder := td.seconds % 3600
    let minutes := remainder / 60
    let seconds := remainder % 60
    zeroPad2 hours ++ ":" ++ zeroPad2 minutes ++ ":" ++ zeroPad2 seconds

/-- Modelled from the spec's words for comparison with the code: decompose
a duration's total whole seconds into hours, minutes and seconds, the hours
being the full (unbounded) quotient by 3600, and render zero-padded. -/
def specAudiobookLength (total : Nat) : String :=
  zeroPad2 (total / 3600) ++ ":" ++ zeroPad2 (total % 3600 / 60) ++ ":" ++ zeroPad2 (total % 3600 % 60)

/-- A concrete book record with every inert field fixed, for evaluating the
guarded operations at chosen format/status/condition/duration values. -/
def mkSampleBook (book_format : BookFormat) (status : BookStatus) (cond : BookCondition)
    (length : Option PyTimedelta) : Book :=
  { title := "Sample Title"
    authors := ["Sample Author"]
    isbn := "978-0-00-000000-0"
    publication_date := { year := 2020, month := 1, day := 1 }
    publisher := "Sample Publisher"
    edition := 1
    genres := ["Fantasy"]
    number_of_pages := 320
    language := "English"
    format := book_format
    summary := "A sample summary."
    cover_image_url := "http://example.org/cover.png"
    current_status := status
    location_in_library := none
    date_added := { year := 2021, month := 6, day := 15 }
    purchase_price := { code := 1999 }
    replacement_cost := { code := 2499 }
    dewey_decimal := "813.6"
    keywords := ["sample"]
    reading_level := "Adult"
    series_name_and_num := none
    orig_pub_date := none
    translator := none
    illustrator := none
    condition := cond
    number_of_times_checked_out := 0
    user_ratings := []
    awards := []
    barcode_number := "0001"
    date_available := none
    digital_file_format := none
    digital_file_size := none
    audiobook_length := length }

/-- One field of a Python dataclass declaration: its name and whether the
declaration gives it a default (a `= ...` or `= field(default_factory=...)`). -/
structure PyFieldDecl where
  fieldName : String
  hasDefault : Bool
deriving DecidableEq

/-- The fields of `@dataclass class Book` (book.py lines 276-310) in
declaration order, with their default flags as written. -/
def bookFieldDecls : List PyFieldDecl := [
  { fieldName := "title", hasDefault := false },
  { fieldName := "authors", hasDefault := true },
  { fieldName := "isbn", hasDefault := false },
  { fieldName := "publication_date", hasDefault := false },
  { fieldName := "publisher", hasDefault := false },
  { fieldName := "edition", hasDefault := false },
  { fieldName := "genres", hasDefault := true },
  { fieldName := "number_of_pages", hasDefault := false },
  { fieldName := "language", hasDefault := false },
  { fieldName := "format", hasDefault := false },
  { fieldName := "summary", hasDefault := false },
  { fieldName := "cover_image_url", hasDefault := false },
  { fieldName := "current_status", hasDefault := false },
  { fieldName := "location_in_library", hasDefault := true },
  { fieldName := "date_added", hasDefault := false },
  { fieldName := "purchase_price", hasDefault := false },
  { fieldName := "replacement_cost", hasDefault := false },
  { fieldName := "dewey_decimal", hasDefault := false },
  { fieldName := "keywords", hasDefault := true },
  { fieldName := "reading_level", hasDefault := false },
  { fieldName := "series_name_and_num", hasDefault := true },
  { fieldName := "orig_pub_date", hasDefault := true },
  { fieldName := "translator", hasDefault := true },
  { fieldName := "illustrator", hasDefault := true },
  { fieldName := "condition", hasDefault := false },
  { fieldName := "number_of_times_checked_out", hasDefault := true },
  { fieldName := "user_ratings", hasDefault := true },
  { fieldName := "awards", hasDefault := true },
  { fieldName := "barcode_number", hasDefault := false },
  { fieldName := "date_available", hasDefault := true },
  { fieldName := "digital_file_format", hasDefault := true },
  { fieldName := "digital_file_size", hasDefault := true },
  { fieldName := "audiobook_length", hasDefault := true }
]

/-- The `@dataclass` machinery's scan of the declared fields while it builds
`__init__` (CPython `dataclasses._init_fn`): walking the fields in order
with a seen-a-default flag, a field without a default after one with a
default raises `TypeError("non-default argument %r follows default
argument")`, so the class statement itself fails. -/
def dataclassInitCheck : List PyFieldDecl → Bool → Except PyError Unit
  | [], _ => Except.ok ()
  | f :: rest, seenDefault =>
    if f.hasDefault = true then dataclassInitCheck rest true
    else if seenDefault = true then
      Except.error (PyError.dataclassNonDefaultFollowsDefault f.fieldName)
    else dataclassInitCheck rest false

/-- C4: for the physical formats `get_valid_statuses` is exactly the four
statuses and `get_valid_conditions` exactly the five conditions, in
declaration order; for Audiobook and E-book both are the singletons
`[Available]` and `[New]`.  The eight equations cover the whole closed
`BookFormat` set, so both functions are total with no failure mode. -/
theorem format_policy_tables :
    BookStatus.get_valid_statuses BookFormat.hardcover
      = [BookStatus.available, BookStatus.checked_out, BookStatus.on_hold, BookStatus.in_repair]
    ∧ BookStatus.get_valid_statuses BookFormat.paperback
      = [BookStatus.available, BookStatus.checked_out, BookStatus.on_hold, BookStatus.in_repair]
    ∧ BookStatus.get_valid_statuses BookFormat.audiobook = [BookStatus.available]
    ∧ BookStatus.get_valid_statuses BookFormat.ebook = [BookStatus.available]
    ∧ BookCondition.get_valid_conditions BookFormat.hardcover
      = [BookCondition.new, BookCondition.excellent, BookCondition.good,
         BookCondition.fair, BookCondition.poor]
    ∧ BookCondition.get_valid_conditions BookFormat.paperback
      = [BookCondition.new, BookCondition.excellent, BookCondition.good,
         BookCondition.fair, BookCondition.poor]
    ∧ BookCondition.get_valid_conditions BookFormat.audiobook = [BookCondition.new]
    ∧ BookCondition.get_valid_conditions BookFormat.ebook = [BookCondition.new] :=
  ⟨rfl, rfl, rfl, rfl, rfl, rfl, rfl, rfl⟩

/-- C10: the `Book` dataclass declares fields without defaults after fields
with defaults (`isbn` is the first, right after `authors`), so the
`@dataclass` machinery rejects the class body with a `TypeError` naming
`isbn` — the class statement fails and no `Book` can be constructed. -/
theorem book_dataclass_field_order_rejected :
    dataclassInitCheck bookFieldDecls false
      = Except.error (PyError.dataclassNonDefaultFollowsDefault "isbn") :=
  rfl

/-- C9 counterexample: `BookCategory.create_categories()` never returns the
dict of entries the claim says module initialization rebinds the name to —
it raises on its very first entry, so the rebinding (and with it the
claimed `isinstance`-against-a-dict `TypeError`) is never reached. -/
theorem create_categories_returns_no_dict :
    ¬ ∃ entries, BookCategory.create_categories = Except.ok entries := by
  rintro ⟨entries, h⟩
  rw [show BookCategory.create_categories = Except.error PyError.enumHasNoMembers from rfl] at h
  exact Except.noConfusion h

/-- C9 as amended: module initialization fails even earlier than the claim
says.  `BookCategory` has no members when its class body finishes, so the
first `cls(category)` call inside `create_categories` raises
`TypeError("<enum 'BookCategory'> has no members defined")`; the module
never finishes importing and no constructor is reachable at all. -/
theorem create_categories_fails_at_import :
    BookCategory.create_categories = Except.error PyError.enumHasNoMembers
    ∧ BookCategory.classMembers = [] :=
  ⟨rfl, rfl⟩

/-- C5: category resolution through `BookCategory(...)` can never succeed —
the class has no members, so `Enum.__new__` raises for every candidate
string, including strings (such as "fantasy") that case-insensitively equal
a label of the closed registry list. -/
theorem category_resolution_never_succeeds :
    (∀ (s : String), enumClassCall BookCategory.classMembers s
        = Except.error PyError.enumHasNoMembers)
    ∧ enumClassCall BookCategory.classMembers "fantasy"
        = Except.error PyError.enumHasNoMembers
    ∧ "Fantasy" ∈ VALID_CATEGORIES
    ∧ pyLower "fantasy" = pyLower "Fantasy" :=
  ⟨fun _ => rfl, rfl, by decide, rfl⟩

/-- C1: the JSON round trip behaves as claimed for `BookSeries` but can
never complete for a valid `LibraryLocation`: serializing raises a
`TypeError` because the category field holds a `BookCategory` member, which
the default JSON encoder rejects; and even a by-hand JSON object with the
canonical label as a plain string fails to parse back, because `from_dict`
passes the raw string to the constructor whose `isinstance` check rejects
anything but a registry member. -/
theorem location_series_round_trip_behavior :
    LibraryLocation.post_init { category := PyVal.categoryEntry "Fantasy", shelf := PyVal.int 3 }
      = Except.ok { category := PyVal.categoryEntry "Fantasy", shelf := PyVal.int 3 }
    ∧ LibraryLocation.round_trip { category := PyVal.categoryEntry "Fantasy", shelf := PyVal.int 3 }
      = Except.error PyError.jsonNotSerializable
    ∧ LibraryLocation.from_json [("category", JsonVal.str "Fantasy"), ("shelf", JsonVal.int 3)]
      = Except.error PyError.invalidCategory
    ∧ ∀ (s : String) (n : Int),
        BookSeries.round_trip { series := PyVal.str s, number := PyVal.int n }
          = Except.ok { series := PyVal.str s, number := PyVal.int n } :=
  ⟨rfl, rfl, rfl, fun _ _ => rfl⟩

/-- C8 counterexample: with a category that is no registry entry and a
non-positive shelf, construction fails with the category error, not the
shelf error the claim promises for every non-positive shelf — the category
`isinstance` test runs first. -/
theorem category_checked_before_shelf :
    LibraryLocation.create (PyVal.str "Fantasy") (PyVal.int 0)
      = Except.error PyError.invalidCategory
    ∧ PyError.invalidCategory ≠ PyError.invalidShelfNumber :=
  ⟨rfl, by decide⟩

/-- C8 as amended: the category test runs first — any category that is not
a registry member fails with `InvalidCategory` regardless of the shelf; for
a registry member, a shelf that is not a positive integer fails with
`InvalidShelfNumber`; and with a registry member and an integer shelf ≥ 1
construction succeeds returning the value with exactly those fields. -/
theorem location_create_spec :
    ∀ (category shelf : PyVal),
      (isBookCategoryInstance category = false →
        LibraryLocation.create category shelf = Except.error PyError.invalidCategory)
      ∧ (isBookCategoryInstance category = true → shelfIsPositiveInt shelf = false →
        LibraryLocation.create category shelf = Except.error PyError.invalidShelfNumber)
      ∧ (isBookCategoryInstance category = true → shelfIsPositiveInt shelf = true →
        LibraryLocation.create category shelf
          = Except.ok { category := category, shelf := shelf }) := by
  intro category shelf
  refine ⟨fun h => ?_, fun h1 h2 => ?_, fun h1 h2 => ?_⟩ <;>
    simp [LibraryLocation.create, LibraryLocation.post_init, *]

/-- Witness for the amended C8 statement at concrete inputs: a raw-string
category fails with the category error, a registry member with shelf 0
fails with the shelf error, and a registry member with shelf 2 constructs. -/
theorem location_create_spec_witness :
    LibraryLocation.create (PyVal.int 7) (PyVal.int 2) = Except.error PyError.invalidCategory
    ∧ LibraryLocation.create (PyVal.categoryEntry "Fantasy") (PyVal.int 0)
        = Except.error PyError.invalidShelfNumber
    ∧ LibraryLocation.create (PyVal.categoryEntry "Fantasy") (PyVal.int 2)
        = Except.ok { category := PyVal.categoryEntry "Fantasy", shelf := PyVal.int 2 } :=
  ⟨(location_create_spec (PyVal.int 7) (PyVal.int 2)).1 (by decide),
   (location_create_spec (PyVal.categoryEntry "Fantasy") (PyVal.int 0)).2.1 (by decide) (by decide),
   (location_create_spec (PyVal.categoryEntry "Fantasy") (PyVal.int 2)).2.2 (by decide) (by decide)⟩

/-- C2 counterexample: an E-book whose condition is Poor — not in the
format's legal condition set — constructs successfully; `__post_init__`
raises no `InvalidConditionForFormat`. -/
theorem condition_not_checked_at_construction :
    (mkSampleBook BookFormat.ebook BookStatus.available BookCondition.poor none).post_init
      = Except.ok (mkSampleBook BookFormat.ebook BookStatus.available BookCondition.poor none)
    ∧ (BookCondition.get_valid_conditions
          (mkSampleBook BookFormat.ebook BookStatus.available BookCondition.poor none).format).contains
        (mkSampleBook BookFormat.ebook BookStatus.available BookCondition.poor none).condition
      = false :=
  ⟨rfl, rfl⟩

/-- C2 as amended: construction validates only the current status against
the format's legal status set; the condition is never inspected, so a book
whose condition is outside `get_valid_conditions(format)` constructs
whenever its status is legal. -/
theorem post_init_checks_only_status :
    ∀ (b : Book), b.post_init = Except.ok b ↔ b.status_ok = true := by
  intro b
  unfold Book.post_init
  by_cases h : b.status_ok = true <;> simp [h]

/-- The `seconds` attribute of a `timedelta` is the whole seconds within
the current day, hence below 86400. -/
theorem PyTimedelta.seconds_lt (td : PyTimedelta) : td.seconds < 86400 := by
  unfold PyTimedelta.seconds
  have h0 : 0 ≤ (td.total_microseconds.ediv 1000000).emod 86400 :=
    Int.emod_nonneg _ (by decide)
  have h1 : (td.total_microseconds.ediv 1000000).emod 86400 < 86400 :=
    Int.emod_lt_of_pos _ (by decide)
  omega

/-- C3 counterexample: a duration of 25 hours (90000 seconds).  The claim
says the hours are the full quotient of the total seconds by 3600 —
rendering "25:00:00" — but the code reads `timedelta.seconds`, the seconds
within the current day, and renders "01:00:00". -/
theorem audiobook_length_day_truncation :
    (mkSampleBook BookFormat.audiobook BookStatus.available BookCondition.new
        (some { total_microseconds := 90000000000 })).format_audiobook_length = "01:00:00"
    ∧ specAudiobookLength 90000 = "25:00:00"
    ∧ ("01:00:00" : String) ≠ "25:00:00" :=
  ⟨rfl, rfl, by decide⟩

/-- C3 as amended: with no duration the result is "N/A"; otherwise the
decomposition claimed by the spec is applied not to the total seconds but
to the `timedelta.seconds` attribute — the whole seconds modulo one day —
so the rendered hours never exceed 23 (durations under 24 hours render as
the claim says). -/
theorem format_audiobook_length_spec :
    ∀ (b : Book),
      (b.audiobook_length = none → b.format_audiobook_length = "N/A")
      ∧ (∀ (td : PyTimedelta), b.audiobook_length = some td →
          b.format_audiobook_length = specAudiobookLength td.seconds
          ∧ td.seconds / 3600 ≤ 23) := by
  intro b
  constructor
  · intro h
    unfold Book.format_audiobook_length
    rw [h]
  · intro td h
    constructor
    · unfold Book.format_audiobook_length
      rw [h]
      rfl
    · have := PyTimedelta.seconds_lt td
      omega

/-- Witness for the amended C3 statement: "N/A" with no duration, and the
two concrete renderings the claim names — 3661 seconds as "01:01:01" and 0
seconds as "00:00:00" — obtained through the amended statement. -/
theorem format_audiobook_length_spec_witness :
    (mkSampleBook BookFormat.audiobook BookStatus.available BookCondition.new
        none).format_audiobook_length = "N/A"
    ∧ (mkSampleBook BookFormat.audiobook BookStatus.available BookCondition.new
        (some { total_microseconds := 3661000000 })).format_audiobook_length = "01:01:01"
    ∧ (mkSampleBook BookFormat.audiobook BookStatus.available BookCondition.new
        (some { total_microseconds := 0 })).format_audiobook_length = "00:00:00" := by
  refine ⟨(format_audiobook_length_spec _).1 rfl, ?_, ?_⟩
  · have h := ((format_audiobook_length_spec
        (mkSampleBook BookFormat.audiobook BookStatus.available BookCondition.new
          (some { total_microseconds := 3661000000 }))).2
        { total_microseconds := 3661000000 } rfl).1
    rw [h]
    rfl
  · have h := ((format_audiobook_length_spec
        (mkSampleBook BookFormat.audiobook BookStatus.available BookCondition.new
          (some { total_microseconds := 0 }))).2
        { total_microseconds := 0 } rfl).1
    rw [h]
    rfl

/-- C6: `set_status` raises `InvalidStatusForFormat` exactly when the new
status is outside the format's legal set; when it raises, the post-state is
the unchanged object (the check runs before any assignment); when it
succeeds, the post-state is the object with `current_status` — and only
`current_status` — replaced. -/
theorem set_status_spec :
    ∀ (b : Book) (new_status : BookStatus),
      ((b.set_status new_status).1 = some PyError.invalidStatusForFormat
        ↔ (BookStatus.get_valid_statuses b.format).contains new_status = false)
      ∧ ((b.set_status new_status).1 = some PyError.invalidStatusForFormat →
          (b.set_status new_status).2 = b)
      ∧ ((b.set_status new_status).1 = none →
          (b.set_status new_status).2 = { b with current_status := new_status }) := by
  intro b new_status
  by_cases h : (BookStatus.get_valid_statuses b.format).contains new_status = true <;>
    simp [Book.set_status, h]

/-- Witness for C6 at concrete inputs: an E-book refuses `InRepair` and is
left untouched; a hardcover accepts `OnHold` with exactly the status field
replaced. -/
theorem set_status_spec_witness :
    ((mkSampleBook BookFormat.ebook BookStatus.available BookCondition.new none).set_status
        BookStatus.in_repair).1 = some PyError.invalidStatusForFormat
    ∧ ((mkSampleBook BookFormat.ebook BookStatus.available BookCondition.new none).set_status
        BookStatus.in_repair).2
      = mkSampleBook BookFormat.ebook BookStatus.available BookCondition.new none
    ∧ ((mkSampleBook BookFormat.hardcover BookStatus.available BookCondition.new none).set_status
        BookStatus.on_hold).2
      = { mkSampleBook BookFormat.hardcover BookStatus.available BookCondition.new none with
            current_status := BookStatus.on_hold } := by
  have h1 := (set_status_spec
      (mkSampleBook BookFormat.ebook BookStatus.available BookCondition.new none)
      BookStatus.in_repair).1.mpr (by decide)
  refine ⟨h1, (set_status_spec _ _).2.1 h1, (set_status_spec _ _).2.2 (by decide)⟩

/-- A `set_status` call — whether it raises or succeeds — leaves an object
whose current status is still legal for its (unchanged) format. -/
theorem Book.set_status_preserves_status_ok (b : Book) (target : BookStatus)
    (h : b.status_ok = true) : ((b.set_status target).2).status_ok = true := by
  by_cases hc : (BookStatus.get_valid_statuses b.format).contains target = true
  · have h2 : (b.set_status target).2 = { b with current_status := target } := by
      unfold Book.set_status
      rw [if_pos hc]
    rw [h2]
    unfold Book.status_ok
    simpa using hc
  · have h2 : (b.set_status target).2 = b := by
      unfold Book.set_status
      rw [if_neg hc]
    rw [h2]
    exact h

/-- Any sequence of `set_status` calls preserves the status invariant. -/
theorem Book.apply_status_calls_status_ok (calls : List BookStatus) :
    ∀ (b : Book), b.status_ok = true → (b.apply_status_calls calls).status_ok = true := by
  induction calls with
  | nil => intro b h; exact h
  | cons target rest ih =>
    intro b h
    exact ih ((b.set_status target).2) (Book.set_status_preserves_status_ok b target h)

/-- C7: from any successfully constructed book, the invariant
`current_status ∈ get_valid_statuses(format)` holds after any sequence of
`set_status` calls (successful or failing); on a physical format every
status is reachable in one successful call; on a digital format
`set_status(Available)` succeeds and is a no-op while any other target
fails and leaves the book unchanged. -/
theorem status_state_machine :
    ∀ (b : Book), b.post_init = Except.ok b →
      (∀ (calls : List BookStatus), (b.apply_status_calls calls).status_ok = true)
      ∧ (b.format.is_physical = true → ∀ (target : BookStatus),
          (b.set_status target).1 = none ∧ ((b.set_status target).2).current_status = target)
      ∧ (b.format.is_physical = false →
          b.set_status BookStatus.available = (none, b)
          ∧ ∀ (target : BookStatus), target ≠ BookStatus.available →
              (b.set_status target).1 = some PyError.invalidStatusForFormat
              ∧ (b.set_status target).2 = b) := by
  intro b hpost
  have hok : b.status_ok = true := by
    by_cases h : b.status_ok = true
    · exact h
    · unfold Book.post_init at hpost
      rw [if_neg h] at hpost
      exact Except.noConfusion hpost
  refine ⟨fun calls => Book.apply_status_calls_status_ok calls b hok,
    fun hphys target => ?_, fun hdig => ?_⟩
  · have hval : BookStatus.get_valid_statuses b.format
        = [BookStatus.available, BookStatus.checked_out, BookStatus.on_hold,
           BookStatus.in_repair] := by
      unfold BookStatus.get_valid_statuses
      rw [hphys]
      rfl
    have hc : (BookStatus.get_valid_statuses b.format).contains target = true := by
      rw [hval]
      cases target <;> rfl
    constructor
    · unfold Book.set_status
      rw [if_pos hc]
    · unfold Book.set_status
      rw [if_pos hc]
  · have hval : BookStatus.get_valid_statuses b.format = [BookStatus.available] := by
      unfold BookStatus.get_valid_statuses
      rw [hdig]
      rfl
    have hcur : b.current_status = BookStatus.available := by
      unfold Book.status_ok at hok
      rw [hval] at hok
      cases hcs : b.current_status
      · rfl
      · rw [hcs] at hok; exact absurd hok (by decide)
      · rw [hcs] at hok; exact absurd hok (by decide)
      · rw [hcs] at hok; exact absurd hok (by decide)
    constructor
    · unfold Book.set_status
      rw [hval]
      have hc : ([BookStatus.available].contains BookStatus.available) = true := rfl
      rw [if_pos hc]
      rw [← hcur]
    · intro target ht
      have hcf : ¬ (([BookStatus.available].contains target) = true) := by
        cases target
        · exact absurd rfl ht
        · exact fun hx => Bool.noConfusion hx
        · exact fun hx => Bool.noConfusion hx
        · exact fun hx => Bool.noConfusion hx
      constructor
      · unfold Book.set_status
        rw [hval]
        rw [if_neg hcf]
      · unfold Book.set_status
        rw [hval]
        rw [if_neg hcf]

/-- Witness for C7 at concrete inputs: a hardcover constructed in repair
keeps the invariant across a two-call sequence, and an E-book treats
`set_status(Available)` as a successful no-op. -/
theorem status_state_machine_witness :
    ((mkSampleBook BookFormat.hardcover BookStatus.in_repair BookCondition.good
        none).apply_status_calls [BookStatus.available, BookStatus.on_hold]).status_ok = true
    ∧ (mkSampleBook BookFormat.ebook BookStatus.available BookCondition.new none).set_status
        BookStatus.available
      = (none, mkSampleBook BookFormat.ebook BookStatus.available BookCondition.new none) := by
  constructor
  · exact (status_state_machine
      (mkSampleBook BookFormat.hardcover BookStatus.in_repair BookCondition.good none)
      rfl).1 [BookStatus.available, BookStatus.on_hold]
  · exact ((status_state_machine
      (mkSampleBook BookFormat.ebook BookStatus.available BookCondition.new none)
      rfl).2.2 rfl).1
